import Mathlib

set_option maxHeartbeats 2000000
set_option maxRecDepth 8000

/-!
Shallow embedding of the natal-chart computation engine (src/app.py).

Real (Python float) arithmetic is modelled exactly with ℚ; the external
collaborators named by the specification (the Swiss Ephemeris provider,
the timezone database, the wall clock) are oracle parameters.  A Python
`try/except` around an external call is modelled by the oracle returning
an `Option`.
-/

/-- Python float modulo with the sign of the divisor (for a positive
divisor `n` this is `a - n * ⌊a / n⌋`, always in `[0, n)`).  This is the
meaning of the `%` operator used at lines 84, 89 and 240 of app.py. -/
def pymod (a n : ℚ) : ℚ := a - n * ⌊a / n⌋

/-- Python `int()` truncation toward zero. -/
def py_int (q : ℚ) : ℤ := if q < 0 then -⌊-q⌋ else ⌊q⌋

/-- Python `round(x, n)` on exact rationals: round half to even
(banker's rounding), as Python's `round` does on floats. -/
def py_round (n : ℕ) (x : ℚ) : ℚ :=
  let y := x * 10 ^ n
  let f := ⌊y⌋
  let r := y - (f : ℚ)
  let i : ℤ := if r < 1/2 then f else if 1/2 < r then f + 1 else if f % 2 = 0 then f else f + 1
  (i : ℚ) / 10 ^ n

/-- Python list indexing `l[i]` (a negative index counts from the end;
out of range is an error, modelled as `none`). -/
def py_index {α : Type} (l : List α) (i : ℤ) : Option α :=
  if 0 ≤ i then l.get? i.toNat
  else if (-i).toNat ≤ l.length then l.get? (l.length - (-i).toNat) else none

/-- Sign catalogue (lines 77–80). -/
def SIGNS : List String :=
  ["Aries", "Tauro", "Géminis", "Cáncer", "Leo", "Virgo",
   "Libra", "Escorpio", "Sagitario", "Capricornio", "Acuario", "Piscis"]

/-- Planet catalogue (lines 47–60): keys with their Swiss Ephemeris body
ids (SUN=0, MOON=1, …, PLUTO=9, TRUE_NODE=11, CHIRON=15). -/
def PLANETS : List (String × ℤ) :=
  [("sun", 0), ("moon", 1), ("mercury", 2), ("venus", 3), ("mars", 4),
   ("jupiter", 5), ("saturn", 6), ("uranus", 7), ("neptune", 8),
   ("pluto", 9), ("north_node", 11), ("chiron", 15)]

/-- Display-name catalogue (lines 62–75). -/
def PLANET_NAMES : List (String × String) :=
  [("sun", "Sol"), ("moon", "Luna"), ("mercury", "Mercurio"),
   ("venus", "Venus"), ("mars", "Marte"), ("jupiter", "Júpiter"),
   ("saturn", "Saturno"), ("uranus", "Urano"), ("neptune", "Neptuno"),
   ("pluto", "Plutón"), ("north_node", "Nodo Norte"), ("chiron", "Quirón")]

/-- `PLANET_NAMES[key]`.  Every call site uses a key of `PLANETS`, so the
`KeyError` default is never reached; it is defaulted to the key itself. -/
def planet_name (k : String) : String := (PLANET_NAMES.lookup k).getD k

structure SignInfo where
  sign : String
  degree : ℚ
deriving DecidableEq

/-- Lines 84–86 of `get_sign`: `longitude % 360`, plus the (dead, since
the modulo of a positive divisor is never negative) `+ 360` fix-up. -/
def normalize_full (longitude : ℚ) : ℚ :=
  let normalized_lon := pymod longitude 360
  if normalized_lon < 0 then normalized_lon + 360 else normalized_lon

/-- Line 88: `sign_index = int(normalized_lon / 30)`. -/
def sign_index_of (longitude : ℚ) : ℤ := py_int (normalize_full longitude / 30)

/-- Line 89: `degree = normalized_lon % 30`. -/
def degree_raw (longitude : ℚ) : ℚ := pymod (normalize_full longitude) 30

/-- `get_sign` (lines 82–94): sign name by list indexing, degree within
sign rounded to 2 decimals.  An out-of-range index (an exception in
Python) is `none`. -/
def get_sign (longitude : ℚ) : Option SignInfo :=
  (py_index SIGNS (sign_index_of longitude)).map
    fun s => { sign := s, degree := py_round 2 (degree_raw longitude) }

/-- The numeric content of the DMS string `f"{d}°{m:02d}'{s:02d}\""`. -/
structure DMS where
  d : ℤ
  m : ℤ
  s : ℤ
deriving DecidableEq

/-- `format_dms` (lines 96–102): truncating degrees/minutes/seconds
conversion.  Only the three numbers are modelled; the f-string rendering
is plain text formatting. -/
def format_dms (decimal_degrees : ℚ) : DMS :=
  let d := py_int decimal_degrees
  let m_float := (decimal_degrees - (d : ℚ)) * 60
  let m := py_int m_float
  let s := py_int ((m_float - (m : ℚ)) * 60)
  { d := d, m := m, s := s }

/-- Timezone database oracle (pytz).  `none` models both an unrecognized
zone name and any exception raised during conversion. -/
structure TzDb where
  to_utc : ℤ → ℤ → ℤ → ℤ → ℤ → String → Option (ℤ × ℤ × ℤ × ℤ × ℚ)

/-- `convert_local_to_utc` (lines 104–134): on success the converted UTC
components (minute carries seconds as a decimal fraction, line 130); on
any error the input components unchanged (line 134). -/
def convert_local_to_utc (tz : TzDb) (year month day hour minute : ℤ)
    (timezone_str : String) : ℤ × ℤ × ℤ × ℤ × ℚ :=
  match tz.to_utc year month day hour minute timezone_str with
  | some r => r
  | none => (year, month, day, hour, (minute : ℚ))

/-- Raw result of `swe.calc_ut` (longitude, latitude, distance, speed). -/
structure RawPos where
  longitude : ℚ
  latitude : ℚ
  distance : ℚ
  speed : ℚ
deriving DecidableEq

/-- Raw result of `swe.houses`: 12 cusps plus `ascmc[0]`, `ascmc[1]`,
`ascmc[3]`. -/
structure RawHouses where
  cusps : Fin 12 → ℚ
  ascendant : ℚ
  mc : ℚ
  vertex : ℚ

/-- Swiss Ephemeris oracle: `julday`, `calc_ut` (per julian day and body
id), `houses` (per julian day and observer coordinates).  `none` models
a raised exception. -/
structure Ephemeris where
  julday : ℤ → ℤ → ℤ → ℚ → ℚ
  calc_ut : ℚ → ℤ → Option RawPos
  houses : ℚ → ℚ → ℚ → Option RawHouses

/-- `calculate_julian_day` (lines 136–140). -/
def calculate_julian_day (e : Ephemeris) (year month day hour : ℤ) (minute : ℚ) : ℚ :=
  e.julday year month day ((hour : ℚ) + minute / 60)

structure PlanetPos where
  longitude : ℚ
  latitude : ℚ
  distance : ℚ
  speed : ℚ
  degree_dms : DMS
  sign : String
  degree : ℚ
deriving DecidableEq

/-- `calculate_planet_position` (lines 142–163): all numeric outputs
rounded to 6 decimals, `degree_dms` computed from the already-rounded
`sign_info['degree']`, and `None` on any failure. -/
def calculate_planet_position (calcut : ℤ → Option RawPos) (planet_id : ℤ) : Option PlanetPos :=
  match calcut planet_id with
  | none => none
  | some result =>
    match get_sign result.longitude with
    | none => none
    | some sign_info =>
      some { longitude := py_round 6 result.longitude
           , latitude := py_round 6 result.latitude
           , distance := py_round 6 result.distance
           , speed := py_round 6 result.speed
           , degree_dms := format_dms sign_info.degree
           , sign := sign_info.sign
           , degree := sign_info.degree }

structure HouseEntry where
  house : String
  house_number : ℕ
  cusp : ℚ
  degree_dms : DMS
  sign : String
  degree : ℚ
deriving DecidableEq

structure AngleEntry where
  longitude : ℚ
  degree_dms : DMS
  sign : String
  degree : ℚ
deriving DecidableEq

structure HousesData where
  houses : List HouseEntry
  ascendant : AngleEntry
  mc : AngleEntry
  vertex : AngleEntry
deriving DecidableEq

def house_names : List String :=
  ["Casa 1 (AC)", "Casa 2", "Casa 3", "Casa 4 (FC)",
   "Casa 5", "Casa 6", "Casa 7 (DC)", "Casa 8",
   "Casa 9", "Casa 10 (MC)", "Casa 11", "Casa 12"]

def empty_str : String := ""

/-- One entry of the house list (lines 178–187): sign from the full
cusp, cusp rounded to 6 decimals, `degree_dms` from the rounded degree. -/
def mk_house_entry (i : ℕ) (cusp : ℚ) : Option HouseEntry :=
  (get_sign cusp).map fun sign_info =>
    { house := house_names.getD i empty_str
    , house_number := i + 1
    , cusp := py_round 6 cusp
    , degree_dms := format_dms sign_info.degree
    , sign := sign_info.sign
    , degree := sign_info.degree }

/-- An angular-point entry (lines 198–215 for ascendant / mc / vertex). -/
def mk_angle_entry (lon : ℚ) : Option AngleEntry :=
  (get_sign lon).map fun sign_info =>
    { longitude := py_round 6 lon
    , degree_dms := format_dms sign_info.degree
    , sign := sign_info.sign
    , degree := sign_info.degree }

/-- Sequencing of fallible steps inside the `try` block: the loop at
lines 178–187 fails as a whole if any step raises. -/
def map_option {α β : Type} (f : α → Option β) : List α → Option (List β)
  | [] => some []
  | a :: l =>
    match f a, map_option f l with
    | some b, some bl => some (b :: bl)
    | _, _ => none

/-- `calculate_houses` (lines 165–218), with the `swe.houses` call as an
oracle value; `None` on any failure. -/
def calculate_houses (swe_houses : Option RawHouses) : Option HousesData :=
  match swe_houses with
  | none => none
  | some r => do
    let house_list ← map_option (fun i : Fin 12 => mk_house_entry i.val (r.cusps i)) (List.finRange 12)
    let asc ← mk_angle_entry r.ascendant
    let mcv ← mk_angle_entry r.mc
    let vx ← mk_angle_entry r.vertex
    some { houses := house_list, ascendant := asc, mc := mcv, vertex := vx }

/-- The per-house membership test of `get_house_for_planet`
(lines 225–234), for house index `i` with `cusp_start = cusps[i]` and
`cusp_end = cusps[(i+1) % 12]`. -/
def house_mem (c : Fin 12 → ℚ) (i : Fin 12) (lon : ℚ) : Bool :=
  let cusp_start := c i
  let cusp_end := c (i + 1)
  if cusp_end < cusp_start then decide (cusp_start ≤ lon) || decide (lon < cusp_end)
  else decide (cusp_start ≤ lon) && decide (lon < cusp_end)

/-- The loop of `get_house_for_planet` (lines 224–236) over a 12-cusp
sequence: first matching house wins, default house 1. -/
def house_of (lon : ℚ) (c : Fin 12 → ℚ) : ℕ :=
  match (List.finRange 12).find? (fun i => house_mem c i lon) with
  | some i => i.val + 1
  | none => 1

/-- `get_house_for_planet` (lines 220–236): extracts the cusp list from
the house entries (line 222) and runs the loop.  In the service the list
always has exactly 12 entries, so the `getD` default is never used. -/
def get_house_for_planet (planet_longitude : ℚ) (houses : List HouseEntry) : ℕ :=
  let cusps := houses.map (fun h => h.cusp)
  house_of planet_longitude (fun i => cusps.getD i.val 0)

/-- Modelled from the spec (§4.4): the membership rule exactly as the
claim states it — `start <= end`: body in house `i+1` when
`start <= longitude < end`; `start > end`: when
`longitude >= start` OR `longitude < end`. -/
def spec_house_rule (c : Fin 12 → ℚ) (i : Fin 12) (lon : ℚ) : Bool :=
  if c i ≤ c (i + 1) then decide (c i ≤ lon) && decide (lon < c (i + 1))
  else decide (c i ≤ lon) || decide (lon < c (i + 1))

/-- Modelled from the spec (§4.4): houses checked in order 1→12, first
match wins, default house 1. -/
def spec_house (lon : ℚ) (c : Fin 12 → ℚ) : ℕ :=
  match (List.finRange 12).find? (fun i => spec_house_rule c i lon) with
  | some i => i.val + 1
  | none => 1

/-- A valid 12-cusp set spanning the circle: all cusps in `[0, 360)`,
and the cyclic sequence strictly increases except at exactly one
wraparound step. -/
def valid_cusps (c : Fin 12 → ℚ) : Prop :=
  (∀ i, 0 ≤ c i ∧ c i < 360) ∧
  ∃ k : Fin 12, c (k + 1) < c k ∧ ∀ i, i ≠ k → c i < c (i + 1)

/-- `normalize_angle` (lines 238–243): wrap into `(-180, 180]`. -/
def normalize_angle (angle : ℚ) : ℚ :=
  let a := pymod angle 360
  if 180 < a then a - 360 else a

/-- The distance-to-exact computation duplicated at lines 267–275 and
283–290 of `is_aspect_applying`. -/
def distance_to_exact (diff aspect_angle : ℚ) : ℚ :=
  if aspect_angle = 0 then |diff|
  else if aspect_angle = 180 then |(|diff| - 180)|
  else min (|diff - aspect_angle|) (|diff + aspect_angle|)

/-- `is_aspect_applying` (lines 245–293).  Python's literal `0.1` is the
rational 1/10 here. -/
def is_aspect_applying (planet1_lon planet1_speed planet2_lon planet2_speed aspect_angle : ℚ) : Char :=
  let current_diff := normalize_angle (planet1_lon - planet2_lon)
  let relative_speed := planet1_speed - planet2_speed
  let current_distance := distance_to_exact current_diff aspect_angle
  let future_diff := normalize_angle (planet1_lon + relative_speed * (1/10) - planet2_lon)
  let future_distance := distance_to_exact future_diff aspect_angle
  if future_distance < current_distance then 'A' else 'S'

/-- Modelled from the spec (§4.5 step 3): distance-to-exact from a
signed difference — plain distance for conjunction and for the (by
construction symmetric) opposition, minimum distance to either
`+exactAngle` or `-exactAngle` for the other aspect kinds. -/
def spec_distance_to_exact (diff aspect_angle : ℚ) : ℚ :=
  if aspect_angle = 0 then |diff|
  else if aspect_angle = 180 then |(|diff| - 180)|
  else min (|diff - aspect_angle|) (|diff + aspect_angle|)

/-- Modelled from the spec (§4.5 step 3): compute the current
distance-to-exact from `normalizeSigned(lonA - lonB)`, advance BOTH
longitudes by their own angular speeds times 0.1 day, recompute, and
classify as applying exactly when the projected distance is strictly
smaller. -/
def spec_applying (lonA speedA lonB speedB exactAngle : ℚ) : Bool :=
  let current := spec_distance_to_exact (normalize_angle (lonA - lonB)) exactAngle
  let projected := spec_distance_to_exact
    (normalize_angle ((lonA + speedA * (1/10)) - (lonB + speedB * (1/10)))) exactAngle
  decide (projected < current)

structure AspectDef where
  key : String
  angle : ℚ
  orb : ℚ
  name : String
deriving DecidableEq

/-- The orb catalogue (lines 301–307), in Python dict insertion order. -/
def aspect_orbs : List AspectDef :=
  [ { key := "conjunction", angle := 0, orb := 8, name := "Conjunción" }
  , { key := "opposition", angle := 180, orb := 8, name := "Oposición" }
  , { key := "trine", angle := 120, orb := 8, name := "Trígono" }
  , { key := "square", angle := 90, orb := 8, name := "Cuadratura" }
  , { key := "sextile", angle := 60, orb := 4, name := "Sextil" } ]

structure AspectRec where
  planet1 : String
  planet2 : String
  aspect : String
  orb : ℚ
  angle : ℚ
  applying : Char
  type : String
deriving DecidableEq

def pp_str : String := "planet-planet"
def pa_str : String := "planet-angle"
def asc_str : String := "Ascendente"
def mc_str : String := "Medio Cielo"

/-- The inner body of each of the three loops of `calculate_aspects`
(lines 323–341, 352–369, 380–396): angular separation folded to
`[0, 180]`, then one record per aspect kind within its orb. -/
def detect_pair (name1 name2 : String) (lon1 speed1 lon2 speed2 : ℚ)
    (pair_type : String) : List AspectRec :=
  let diff0 := |lon1 - lon2|
  let diff := if 180 < diff0 then 360 - diff0 else diff0
  aspect_orbs.filterMap fun ad =>
    let orb := |diff - ad.angle|
    if orb ≤ ad.orb then
      some { planet1 := name1, planet2 := name2, aspect := ad.name
           , orb := py_round 2 orb, angle := ad.angle
           , applying := is_aspect_applying lon1 speed1 lon2 speed2 ad.angle
           , type := pair_type }
    else none

structure PlanetEntry where
  name : String
  house : ℕ
  longitude : ℚ
  latitude : ℚ
  distance : ℚ
  speed : ℚ
  degree_dms : DMS
  sign : String
  degree : ℚ
deriving DecidableEq

/-- The ordered-pairs double loop (lines 310–341): each key paired with
every later key. -/
def pair_loop : List (String × PlanetEntry) → List AspectRec
  | [] => []
  | (k1, p1) :: rest =>
    (rest.map fun kp =>
      detect_pair (planet_name k1) (planet_name kp.1)
        p1.longitude p1.speed kp.2.longitude kp.2.speed pp_str).flatten
    ++ pair_loop rest

/-- `calculate_aspects` (lines 295–398).  The natal flow only stores
successfully computed entries in `planets`, so the source's skip of
falsy entries never fires and is not modelled. -/
def calculate_aspects (planets : List (String × PlanetEntry))
    (ascendant_lon mc_lon : Option ℚ) : List AspectRec :=
  pair_loop planets
  ++ (match ascendant_lon with
      | none => []
      | some a =>
        (planets.map fun kp =>
          detect_pair (planet_name kp.1) asc_str kp.2.longitude kp.2.speed a 0 pa_str).flatten)
  ++ (match mc_lon with
      | none => []
      | some m =>
        (planets.map fun kp =>
          detect_pair (planet_name kp.1) mc_str kp.2.longitude kp.2.speed m 0 pa_str).flatten)

/-- The per-planet record stored at lines 484–488: display name, house
number, and all position fields. -/
def mk_planet_entry (key : String) (houses : List HouseEntry) (position : PlanetPos) : PlanetEntry :=
  { name := planet_name key
  , house := get_house_for_planet position.longitude houses
  , longitude := position.longitude
  , latitude := position.latitude
  , distance := position.distance
  , speed := position.speed
  , degree_dms := position.degree_dms
  , sign := position.sign
  , degree := position.degree }

/-- One iteration of the planet loop (lines 479–491): a success is
appended to the planets mapping, a failure to the failed list. -/
def planets_step (calcut : ℤ → Option RawPos) (houses : List HouseEntry)
    (acc : List (String × PlanetEntry) × List String) (kv : String × ℤ) :
    List (String × PlanetEntry) × List String :=
  match calculate_planet_position calcut kv.2 with
  | some position => (acc.1 ++ [(kv.1, mk_planet_entry kv.1 houses position)], acc.2)
  | none => (acc.1, acc.2 ++ [kv.1])

/-- The julian day computed by the request pipeline (lines 459–466):
local-to-UTC conversion, then `calculate_julian_day`. -/
def natal_julian_day (e : Ephemeris) (tz : TzDb)
    (year month day hour minute : ℤ) (timezone : String) : ℚ :=
  let u := convert_local_to_utc tz year month day hour minute timezone
  calculate_julian_day e u.1 u.2.1 u.2.2.1 u.2.2.2.1 u.2.2.2.2

/-- The `failed_planets` list accumulated by the loop at lines 477–491.
It is only printed (lines 494–495), never part of the response. -/
def natal_failed_planets (calcut : ℤ → Option RawPos) : List String :=
  PLANETS.filterMap fun kv =>
    match calculate_planet_position calcut kv.2 with
    | none => some kv.1
    | some _ => none

/-- Zero padding of `f"{n:02d}"`. -/
def pad2 (n : ℤ) : String := if 0 ≤ n ∧ n < 10 then "0" ++ toString n else toString n

/-- The `birthInfo` block of the response (lines 507–515). -/
structure BirthInfoOut where
  date : String
  time : String
  latitude : ℚ
  longitude : ℚ
  timezone : String
  julianDay : ℚ
  utcTime : String
deriving DecidableEq

/-- The `chart_data` response object (lines 506–525).  These are exactly
the keys the source builds — there is no field for failed bodies. -/
structure ChartData where
  birthInfo : BirthInfoOut
  planets : List (String × PlanetEntry)
  houses : List HouseEntry
  ascendant : AngleEntry
  mc : AngleEntry
  vertex : AngleEntry
  aspects : List AspectRec
  calculatedAt : String
  precision : String
  ephemeris : String
deriving DecidableEq

def err_houses : String := "Failed to calculate houses"
def high_str : String := "high"
def swiss_str : String := "Swiss Ephemeris"

/-- `calculate_natal_chart` (lines 438–533) from the already-parsed
request fields: time normalization, houses (fatal on failure), the
planet loop with its failed list, aspects, and the response object.
`now` stands for `datetime.utcnow().isoformat() + 'Z'`. -/
def calculate_natal_chart (e : Ephemeris) (tz : TzDb) (now : String)
    (birth_date birth_time timezone : String)
    (year month day hour minute : ℤ) (latitude longitude : ℚ) :
    Except String ChartData :=
  let u := convert_local_to_utc tz year month day hour minute timezone
  let julian_day := natal_julian_day e tz year month day hour minute timezone
  match calculate_houses (e.houses julian_day latitude longitude) with
  | none => Except.error err_houses
  | some houses_data =>
    let step := PLANETS.foldl (planets_step (e.calc_ut julian_day) houses_data.houses) ([], [])
    let planets := step.1
    let _failed_planets := step.2
    let aspects := calculate_aspects planets
      (some houses_data.ascendant.longitude) (some houses_data.mc.longitude)
    Except.ok
      { birthInfo :=
          { date := birth_date, time := birth_time
          , latitude := latitude, longitude := longitude
          , timezone := timezone, julianDay := py_round 6 julian_day
          , utcTime := toString u.1 ++ "-" ++ pad2 u.2.1 ++ "-" ++ pad2 u.2.2.1
              ++ " " ++ pad2 u.2.2.2.1 ++ ":" ++ pad2 (py_int u.2.2.2.2) ++ " UT" }
      , planets := planets
      , houses := houses_data.houses
      , ascendant := houses_data.ascendant
      , mc := houses_data.mc
      , vertex := houses_data.vertex
      , aspects := aspects
      , calculatedAt := now
      , precision := high_str
      , ephemeris := swiss_str }

/-- Projection of a successful response. -/
def exceptOk {ε α : Type} : Except ε α → Option α
  | Except.ok a => some a
  | Except.error _ => none

/-- Every string occurring anywhere in a chart response. -/
def chart_strings (c : ChartData) : List String :=
  [c.birthInfo.date, c.birthInfo.time, c.birthInfo.timezone, c.birthInfo.utcTime]
  ++ c.planets.map Prod.fst
  ++ c.planets.map (fun p => p.2.name)
  ++ c.planets.map (fun p => p.2.sign)
  ++ c.houses.map (fun h => h.house)
  ++ c.houses.map (fun h => h.sign)
  ++ [c.ascendant.sign, c.mc.sign, c.vertex.sign]
  ++ (c.aspects.map fun a => [a.planet1, a.planet2, a.aspect, a.type]).flatten
  ++ [c.calculatedAt, c.precision, c.ephemeris]

/-- Relabeling of an aspect record under swapping of the pair. -/
def swap_names (r : AspectRec) : AspectRec :=
  { r with planet1 := r.planet2, planet2 := r.planet1 }

/-- The cusp sequence read cyclically starting right after the
wraparound index `k`. -/
def cycD (c : Fin 12 → ℚ) (k : Fin 12) (n : ℕ) : ℚ := c (k + 1 + (n : Fin 12))

/-- The cusp set of the spec scenario: house 1 starting at 350°,
straddling 0°. -/
def exCusps : Fin 12 → ℚ := fun i =>
  [(350 : ℚ), 20, 50, 80, 110, 140, 170, 200, 230, 260, 290, 320].getD i.val 0

def ex_tz : TzDb := { to_utc := fun _ _ _ _ _ _ => none }
def bad_zone : String := "Not/AZone"
def tauro_str : String := "Tauro"
def chiron_key : String := "chiron"
def quiron_str : String := "Quirón"
def sun_key : String := "sun"
def moon_key : String := "moon"
def sol_str : String := "Sol"
def luna_str : String := "Luna"
def mercury_key : String := "mercury"
def mercurio_str : String := "Mercurio"
def now_str : String := "2026-10-12T00:00:00Z"
def date_str : String := "2000-01-01"
def time_str : String := "12:00"
def utc_str : String := "UTC"

/-- A concrete ephemeris oracle on which only the sun (id 0) and moon
(id 1) queries succeed; every other body query fails. -/
def ex_eph : Ephemeris :=
  { julday := fun _ _ _ _ => 2451545
  , calc_ut := fun _ id =>
      if id = 0 then some { longitude := 10, latitude := 0, distance := 1, speed := 1 }
      else if id = 1 then some { longitude := 190, latitude := 0, distance := 1, speed := 13 }
      else none
  , houses := fun _ _ _ =>
      some { cusps := fun i => 30 * (i.val : ℚ), ascendant := 0, mc := 270, vertex := 100 } }

def ex_chart : Except String ChartData :=
  calculate_natal_chart ex_eph ex_tz now_str date_str time_str utc_str 2000 1 1 12 0 0 0

def ex_houses_data : HousesData :=
  { houses :=
      [
        ⟨"Casa 1 (AC)", 1, 0, ⟨0,0,0⟩, "Aries", 0⟩,
        ⟨"Casa 2", 2, 30, ⟨0,0,0⟩, "Tauro", 0⟩,
        ⟨"Casa 3", 3, 60, ⟨0,0,0⟩, "Géminis", 0⟩,
        ⟨"Casa 4 (FC)", 4, 90, ⟨0,0,0⟩, "Cáncer", 0⟩,
        ⟨"Casa 5", 5, 120, ⟨0,0,0⟩, "Leo", 0⟩,
        ⟨"Casa 6", 6, 150, ⟨0,0,0⟩, "Virgo", 0⟩,
        ⟨"Casa 7 (DC)", 7, 180, ⟨0,0,0⟩, "Libra", 0⟩,
        ⟨"Casa 8", 8, 210, ⟨0,0,0⟩, "Escorpio", 0⟩,
        ⟨"Casa 9", 9, 240, ⟨0,0,0⟩, "Sagitario", 0⟩,
        ⟨"Casa 10 (MC)", 10, 270, ⟨0,0,0⟩, "Capricornio", 0⟩,
        ⟨"Casa 11", 11, 300, ⟨0,0,0⟩, "Acuario", 0⟩,
        ⟨"Casa 12", 12, 330, ⟨0,0,0⟩, "Piscis", 0⟩ ]
  , ascendant := ⟨0, ⟨0,0,0⟩, "Aries", 0⟩
  , mc := ⟨270, ⟨0,0,0⟩, "Capricornio", 0⟩
  , vertex := ⟨100, ⟨10,0,0⟩, "Cáncer", 10⟩ }

def sunE : PlanetEntry := ⟨"Sol", 1, 10, 0, 1, 1, ⟨10,0,0⟩, "Aries", 10⟩

def moonE : PlanetEntry := ⟨"Luna", 7, 190, 0, 1, 13, ⟨10,0,0⟩, "Libra", 10⟩

def oppRec : AspectRec := ⟨"Sol", "Luna", "Oposición", 0, 180, 'S', "planet-planet"⟩

def ex_chart_val : ChartData :=
  { birthInfo :=
      { date := "2000-01-01", time := "12:00", latitude := 0, longitude := 0
      , timezone := "UTC", julianDay := 2451545, utcTime := "2000-01-01 12:00 UT" }
  , planets := [("sun", sunE), ("moon", moonE)]
  , houses := ex_houses_data.houses
  , ascendant := ex_houses_data.ascendant
  , mc := ex_houses_data.mc
  , vertex := ex_houses_data.vertex
  , aspects := [oppRec]
  , calculatedAt := now_str
  , precision := "high"
  , ephemeris := "Swiss Ephemeris" }

/-! ### Facts about the Python modulo and rounding -/

theorem pymod_nonneg (a : ℚ) {n : ℚ} (hn : 0 < n) : 0 ≤ pymod a n := by
  have h1 : ((⌊a / n⌋ : ℤ) : ℚ) ≤ a / n := Int.floor_le _
  have h2 : n * ((⌊a / n⌋ : ℤ) : ℚ) ≤ n * (a / n) :=
    mul_le_mul_of_nonneg_left h1 (le_of_lt hn)
  rw [mul_div_cancel₀ _ (ne_of_gt hn)] at h2
  unfold pymod
  linarith

theorem pymod_lt (a : ℚ) {n : ℚ} (hn : 0 < n) : pymod a n < n := by
  have h1 : a / n < (⌊a / n⌋ : ℚ) + 1 := Int.lt_floor_add_one _
  have h2 : n * (a / n) < n * ((⌊a / n⌋ : ℚ) + 1) := (mul_lt_mul_left hn).mpr h1
  rw [mul_div_cancel₀ _ (ne_of_gt hn)] at h2
  have h3 : n * ((⌊a / n⌋ : ℚ) + 1) = n * (⌊a / n⌋ : ℚ) + n := by ring
  unfold pymod
  linarith

theorem pymod_eq_mul_fract (a : ℚ) {n : ℚ} (hn : n ≠ 0) :
    pymod a n = n * Int.fract (a / n) := by
  unfold pymod
  rw [Int.fract, mul_sub, mul_div_cancel₀ _ hn]

theorem pymod_add_mul_int (a : ℚ) {n : ℚ} (hn : n ≠ 0) (k : ℤ) :
    pymod (a + n * k) n = pymod a n := by
  unfold pymod
  have h : (a + n * k) / n = a / n + k := by
    field_simp
    ring
  rw [h, Int.floor_add_int]
  push_cast
  ring

theorem pymod_neg (a : ℚ) {n : ℚ} (hn : 0 < n) :
    pymod (-a) n = if pymod a n = 0 then 0 else n - pymod a n := by
  have hne : n ≠ 0 := ne_of_gt hn
  rw [pymod_eq_mul_fract _ hne, pymod_eq_mul_fract _ hne, neg_div]
  by_cases h : Int.fract (a / n) = 0
  · simp [h, Int.fract_neg_eq_zero.mpr h]
  · rw [Int.fract_neg h, if_neg (mul_ne_zero hne h)]
    ring

theorem py_int_of_nonneg {x : ℚ} (h : 0 ≤ x) : py_int x = ⌊x⌋ :=
  if_neg (not_lt.2 h)

/-! ### Facts about the sign resolver -/

theorem normalize_full_eq (L : ℚ) : normalize_full L = pymod L 360 := by
  unfold normalize_full
  rw [if_neg (not_lt.2 (pymod_nonneg L (by norm_num)))]

theorem normalize_full_nonneg (L : ℚ) : 0 ≤ normalize_full L := by
  rw [normalize_full_eq]
  exact pymod_nonneg L (by norm_num)

theorem normalize_full_lt (L : ℚ) : normalize_full L < 360 := by
  rw [normalize_full_eq]
  exact pymod_lt L (by norm_num)

theorem sign_index_bounds (L : ℚ) : 0 ≤ sign_index_of L ∧ sign_index_of L ≤ 11 := by
  have h0 := normalize_full_nonneg L
  have h1 := normalize_full_lt L
  have hq0 : (0 : ℚ) ≤ normalize_full L / 30 := by positivity
  have hq1 : normalize_full L / 30 < 12 := by
    rw [div_lt_iff₀ (by norm_num)]
    linarith
  unfold sign_index_of py_int
  rw [if_neg (not_lt.2 hq0)]
  refine ⟨Int.floor_nonneg.mpr hq0, ?_⟩
  have h12 : ⌊normalize_full L / 30⌋ < 12 := by
    rw [Int.floor_lt]
    exact_mod_cast hq1
  omega

theorem py_index_SIGNS_isSome {i : ℤ} (h0 : 0 ≤ i) (h1 : i ≤ 11) :
    (py_index SIGNS i).isSome = true := by
  unfold py_index
  rw [if_pos h0]
  interval_cases i <;> decide

theorem get_sign_isSome (L : ℚ) : (get_sign L).isSome = true := by
  unfold get_sign
  obtain ⟨h0, h1⟩ := sign_index_bounds L
  obtain ⟨s, hs⟩ := Option.isSome_iff_exists.mp (py_index_SIGNS_isSome h0 h1)
  rw [hs]
  rfl

theorem get_sign_degree {L : ℚ} {si : SignInfo} (h : get_sign L = some si) :
    si.degree = py_round 2 (degree_raw L) := by
  unfold get_sign at h
  obtain ⟨s, _, hsi⟩ := Option.map_eq_some'.mp h
  rw [← hsi]

theorem py_round2_bounds {x : ℚ} (h0 : 0 ≤ x) (h1 : x < 30) :
    0 ≤ py_round 2 x ∧ py_round 2 x ≤ 30 := by
  have key : ∀ i : ℤ, 0 ≤ i → i ≤ 3000 → 0 ≤ (i : ℚ) / 10 ^ 2 ∧ (i : ℚ) / 10 ^ 2 ≤ 30 := by
    intro i hi0 hi1
    have hc0 : (0 : ℚ) ≤ (i : ℚ) := by exact_mod_cast hi0
    have hc1 : (i : ℚ) ≤ 3000 := by exact_mod_cast hi1
    constructor
    · exact div_nonneg hc0 (by norm_num)
    · rw [div_le_iff₀ (by norm_num)]
      linarith
  have hy0 : (0 : ℚ) ≤ x * 10 ^ 2 := by positivity
  have hy1 : x * 10 ^ 2 < 3000 := by nlinarith
  have hf0 : (0 : ℤ) ≤ ⌊x * 10 ^ 2⌋ := Int.floor_nonneg.mpr hy0
  have hf1 : ⌊x * 10 ^ 2⌋ < 3000 := by
    rw [Int.floor_lt]
    exact_mod_cast hy1
  simp only [py_round]
  split_ifs <;> exact key _ (by omega) (by omega)

/-- C3: for every local date-time input and timezone identifier, if the
timezone lookup or the local-to-UTC conversion fails (oracle `none`),
the Time Normalizer returns the input components unchanged, treating the
local time as already UTC; being a total function, it never aborts. -/
theorem C3_utc_fallback (tz : TzDb) (year month day hour minute : ℤ)
    (timezone_str : String)
    (hfail : tz.to_utc year month day hour minute timezone_str = none) :
    convert_local_to_utc tz year month day hour minute timezone_str
      = (year, month, day, hour, (minute : ℚ)) := by
  unfold convert_local_to_utc
  rw [hfail]

theorem C3_witness :
    convert_local_to_utc ex_tz 1990 6 15 10 30 bad_zone
      = (1990, 6, 15, 10, (30 : ℚ)) :=
  C3_utc_fallback ex_tz 1990 6 15 10 30 bad_zone rfl

/-- C8: the normalized longitude lies in [0, 360) and is congruent to
the input modulo 360; consequently the resolved sign name is invariant
under adding any integer multiple of 360. -/
theorem C8_sign_stability (L : ℚ) (k : ℤ) :
    (0 ≤ normalize_full L ∧ normalize_full L < 360)
    ∧ (∃ m : ℤ, L - normalize_full L = 360 * m)
    ∧ (get_sign (L + 360 * k)).map SignInfo.sign = (get_sign L).map SignInfo.sign := by
  refine ⟨⟨normalize_full_nonneg L, normalize_full_lt L⟩, ⟨⌊L / 360⌋, ?_⟩, ?_⟩
  · rw [normalize_full_eq]
    unfold pymod
    ring
  · have hstab : normalize_full (L + 360 * k) = normalize_full L := by
      rw [normalize_full_eq, normalize_full_eq, pymod_add_mul_int L (by norm_num) k]
    unfold get_sign sign_index_of degree_raw
    rw [hstab]

/-- C10 (amended): the Sign Resolver totally succeeds — the sign index
is an integer in 0..11, list indexing is in range, and the UNROUNDED
degree-within-sign lies in [0, 30); the returned degree, however, is the
2-decimal rounding of that value and therefore lies in [0, 30] (it can
equal 30 exactly). -/
theorem C10_sign_resolver_total (L : ℚ) :
    (0 ≤ sign_index_of L ∧ sign_index_of L ≤ 11)
    ∧ (get_sign L).isSome = true
    ∧ (0 ≤ degree_raw L ∧ degree_raw L < 30)
    ∧ ∀ si : SignInfo, get_sign L = some si → 0 ≤ si.degree ∧ si.degree ≤ 30 := by
  have hdr0 : 0 ≤ degree_raw L := pymod_nonneg _ (by norm_num)
  have hdr1 : degree_raw L < 30 := pymod_lt _ (by norm_num)
  refine ⟨sign_index_bounds L, get_sign_isSome L, ⟨hdr0, hdr1⟩, ?_⟩
  intro si hsi
  rw [get_sign_degree hsi]
  exact py_round2_bounds hdr0 hdr1

/-- C10 counterexample: at longitude 29.999 the returned (rounded)
degree-within-sign is exactly 30, which does not lie in [0, 30). -/
theorem C10_counterexample :
    (get_sign (29999 / 1000)).map SignInfo.degree = some 30 ∧ ¬ ((30 : ℚ) < 30) := by
  constructor
  · norm_num [get_sign, sign_index_of, degree_raw, normalize_full, pymod, py_int,
      py_round, py_index, SIGNS]
  · norm_num

theorem C10_witness :
    (0 ≤ sign_index_of 45 ∧ sign_index_of 45 ≤ 11)
    ∧ (get_sign 45).isSome = true
    ∧ (0 ≤ degree_raw 45 ∧ degree_raw 45 < 30)
    ∧ (0 ≤ (15 : ℚ) ∧ (15 : ℚ) ≤ 30) := by
  obtain ⟨h1, h2, h3, h4⟩ := C10_sign_resolver_total 45
  exact ⟨h1, h2, h3, h4 { sign := tauro_str, degree := 15 }
    (by norm_num [get_sign, sign_index_of, degree_raw, normalize_full, pymod, py_int,
      py_round, py_index, SIGNS, tauro_str])⟩

/-! ### The DMS formatter -/

theorem format_dms_trunc {x : ℚ} (hx : 0 ≤ x) :
    (format_dms x).d = ⌊x⌋
    ∧ (0 ≤ (format_dms x).m ∧ (format_dms x).m < 60)
    ∧ (0 ≤ (format_dms x).s ∧ (format_dms x).s < 60)
    ∧ ((format_dms x).d : ℚ) + ((format_dms x).m : ℚ) / 60 + ((format_dms x).s : ℚ) / 3600 ≤ x
    ∧ x < ((format_dms x).d : ℚ) + ((format_dms x).m : ℚ) / 60 + (((format_dms x).s : ℚ) + 1) / 3600 := by
  have hfl : ((⌊x⌋ : ℤ) : ℚ) ≤ x := Int.floor_le x
  have hfu : x < ((⌊x⌋ : ℤ) : ℚ) + 1 := Int.lt_floor_add_one x
  have e1 : py_int x = ⌊x⌋ := py_int_of_nonneg hx
  have hm0 : (0 : ℚ) ≤ (x - ((⌊x⌋ : ℤ) : ℚ)) * 60 := by nlinarith
  have e2 : py_int ((x - ((⌊x⌋ : ℤ) : ℚ)) * 60) = ⌊(x - ((⌊x⌋ : ℤ) : ℚ)) * 60⌋ :=
    py_int_of_nonneg hm0
  have hMl : ((⌊(x - ((⌊x⌋ : ℤ) : ℚ)) * 60⌋ : ℤ) : ℚ) ≤ (x - ((⌊x⌋ : ℤ) : ℚ)) * 60 :=
    Int.floor_le _
  have hMu : (x - ((⌊x⌋ : ℤ) : ℚ)) * 60 < ((⌊(x - ((⌊x⌋ : ℤ) : ℚ)) * 60⌋ : ℤ) : ℚ) + 1 :=
    Int.lt_floor_add_one _
  have hs0 : (0 : ℚ) ≤ ((x - ((⌊x⌋ : ℤ) : ℚ)) * 60 - ((⌊(x - ((⌊x⌋ : ℤ) : ℚ)) * 60⌋ : ℤ) : ℚ)) * 60 := by
    nlinarith
  have e3 : py_int (((x - ((⌊x⌋ : ℤ) : ℚ)) * 60 - ((⌊(x - ((⌊x⌋ : ℤ) : ℚ)) * 60⌋ : ℤ) : ℚ)) * 60)
      = ⌊((x - ((⌊x⌋ : ℤ) : ℚ)) * 60 - ((⌊(x - ((⌊x⌋ : ℤ) : ℚ)) * 60⌋ : ℤ) : ℚ)) * 60⌋ :=
    py_int_of_nonneg hs0
  have hSl : ((⌊((x - ((⌊x⌋ : ℤ) : ℚ)) * 60 - ((⌊(x - ((⌊x⌋ : ℤ) : ℚ)) * 60⌋ : ℤ) : ℚ)) * 60⌋ : ℤ) : ℚ)
      ≤ ((x - ((⌊x⌋ : ℤ) : ℚ)) * 60 - ((⌊(x - ((⌊x⌋ : ℤ) : ℚ)) * 60⌋ : ℤ) : ℚ)) * 60 :=
    Int.floor_le _
  have hSu : ((x - ((⌊x⌋ : ℤ) : ℚ)) * 60 - ((⌊(x - ((⌊x⌋ : ℤ) : ℚ)) * 60⌋ : ℤ) : ℚ)) * 60
      < ((⌊((x - ((⌊x⌋ : ℤ) : ℚ)) * 60 - ((⌊(x - ((⌊x⌋ : ℤ) : ℚ)) * 60⌋ : ℤ) : ℚ)) * 60⌋ : ℤ) : ℚ) + 1 :=
    Int.lt_floor_add_one _
  have hfd : format_dms x
      = { d := ⌊x⌋
        , m := ⌊(x - ((⌊x⌋ : ℤ) : ℚ)) * 60⌋
        , s := ⌊((x - ((⌊x⌋ : ℤ) : ℚ)) * 60 - ((⌊(x - ((⌊x⌋ : ℤ) : ℚ)) * 60⌋ : ℤ) : ℚ)) * 60⌋ } := by
    simp only [format_dms, e1, e2, e3]
  rw [hfd]
  refine ⟨rfl, ⟨Int.floor_nonneg.mpr hm0, ?_⟩, ⟨Int.floor_nonneg.mpr hs0, ?_⟩, ?_, ?_⟩
  · rw [Int.floor_lt]
    push_cast
    nlinarith
  · rw [Int.floor_lt]
    push_cast
    nlinarith
  · simp only
    linarith
  · simp only
    linarith

theorem calculate_planet_position_mk {calcut : ℤ → Option RawPos} {pid : ℤ} {r : RawPos}
    {si : SignInfo} (hc : calcut pid = some r) (hs : get_sign r.longitude = some si) :
    calculate_planet_position calcut pid
      = some { longitude := py_round 6 r.longitude, latitude := py_round 6 r.latitude
             , distance := py_round 6 r.distance, speed := py_round 6 r.speed
             , degree_dms := format_dms si.degree, sign := si.sign, degree := si.degree } := by
  unfold calculate_planet_position
  simp only [hc, hs]

theorem calculate_planet_position_some {calcut : ℤ → Option RawPos} {pid : ℤ} {p : PlanetPos}
    (hp : calculate_planet_position calcut pid = some p) :
    ∃ r si, calcut pid = some r ∧ get_sign r.longitude = some si
      ∧ p = { longitude := py_round 6 r.longitude, latitude := py_round 6 r.latitude
            , distance := py_round 6 r.distance, speed := py_round 6 r.speed
            , degree_dms := format_dms si.degree, sign := si.sign, degree := si.degree } := by
  unfold calculate_planet_position at hp
  split at hp
  · exact absurd hp (by simp)
  next r hr =>
    split at hp
    · exact absurd hp (by simp)
    next si hsi =>
      exact ⟨r, si, hr, hsi, (Option.some.inj hp).symm⟩

theorem mk_house_entry_some {i : ℕ} {cusp : ℚ} {h : HouseEntry}
    (hh : mk_house_entry i cusp = some h) :
    h.degree_dms = format_dms h.degree ∧ h.degree = py_round 2 (degree_raw cusp) := by
  unfold mk_house_entry at hh
  obtain ⟨si, hsi, hrec⟩ := Option.map_eq_some'.mp hh
  subst hrec
  exact ⟨rfl, get_sign_degree hsi⟩

theorem mk_angle_entry_some {lon : ℚ} {a : AngleEntry}
    (ha : mk_angle_entry lon = some a) :
    a.degree_dms = format_dms a.degree ∧ a.degree = py_round 2 (degree_raw lon) := by
  unfold mk_angle_entry at ha
  obtain ⟨si, hsi, hrec⟩ := Option.map_eq_some'.mp ha
  subst hrec
  exact ⟨rfl, get_sign_degree hsi⟩

theorem map_option_mem {α β : Type} {f : α → Option β} :
    ∀ {l : List α} {res : List β}, map_option f l = some res →
      ∀ b ∈ res, ∃ a ∈ l, f a = some b := by
  intro l
  induction l with
  | nil =>
    intro res h b hb
    unfold map_option at h
    cases h
    simp at hb
  | cons a t ih =>
    intro res h b hb
    unfold map_option at h
    cases hfa : f a with
    | none => rw [hfa] at h; exact absurd h (by simp)
    | some b0 =>
      rw [hfa] at h
      cases hmt : map_option f t with
      | none => rw [hmt] at h; exact absurd h (by simp)
      | some bt =>
        rw [hmt] at h
        cases h
        rcases List.mem_cons.mp hb with hb | hb
        · exact ⟨a, List.mem_cons_self a t, hb ▸ hfa⟩
        · obtain ⟨a', ha', hfa'⟩ := ih hmt b hb
          exact ⟨a', List.mem_cons_of_mem a ha', hfa'⟩

theorem calculate_houses_some {r : RawHouses} {hd : HousesData}
    (h : calculate_houses (some r) = some hd) :
    map_option (fun i : Fin 12 => mk_house_entry i.val (r.cusps i)) (List.finRange 12)
        = some hd.houses
    ∧ mk_angle_entry r.ascendant = some hd.ascendant
    ∧ mk_angle_entry r.mc = some hd.mc
    ∧ mk_angle_entry r.vertex = some hd.vertex := by
  unfold calculate_houses at h
  simp only [Option.bind_eq_bind, Option.bind_eq_some] at h
  obtain ⟨hl, hhl, asc, hasc, mcv, hmcv, vx, hvx, h⟩ := h
  cases h
  exact ⟨hhl, hasc, hmcv, hvx⟩

/-- C9: the degrees/minutes/seconds formatter is the truncating (never
rounding) conversion, and in every body, cusp and angular-point entry it
is applied to the degree value already rounded to 2 decimal places (the
entry's own `degree` field), not to the full-precision longitude. -/
theorem C9_dms_rendering :
    (∀ x : ℚ, 0 ≤ x →
      (format_dms x).d = ⌊x⌋
      ∧ (0 ≤ (format_dms x).m ∧ (format_dms x).m < 60)
      ∧ (0 ≤ (format_dms x).s ∧ (format_dms x).s < 60)
      ∧ ((format_dms x).d : ℚ) + ((format_dms x).m : ℚ) / 60 + ((format_dms x).s : ℚ) / 3600 ≤ x
      ∧ x < ((format_dms x).d : ℚ) + ((format_dms x).m : ℚ) / 60 + (((format_dms x).s : ℚ) + 1) / 3600)
    ∧ (∀ (calcut : ℤ → Option RawPos) (pid : ℤ) (p : PlanetPos),
        calculate_planet_position calcut pid = some p →
        p.degree_dms = format_dms p.degree
        ∧ ∃ r : RawPos, calcut pid = some r ∧ p.degree = py_round 2 (degree_raw r.longitude))
    ∧ (∀ (r : RawHouses) (hd : HousesData),
        calculate_houses (some r) = some hd →
        (∀ h ∈ hd.houses, h.degree_dms = format_dms h.degree
          ∧ ∃ i : Fin 12, h.degree = py_round 2 (degree_raw (r.cusps i)))
        ∧ (hd.ascendant.degree_dms = format_dms hd.ascendant.degree
          ∧ hd.ascendant.degree = py_round 2 (degree_raw r.ascendant))
        ∧ (hd.mc.degree_dms = format_dms hd.mc.degree
          ∧ hd.mc.degree = py_round 2 (degree_raw r.mc))
        ∧ (hd.vertex.degree_dms = format_dms hd.vertex.degree
          ∧ hd.vertex.degree = py_round 2 (degree_raw r.vertex))) := by
  refine ⟨fun x hx => format_dms_trunc hx, ?_, ?_⟩
  · intro calcut pid p hp
    obtain ⟨r, si, hc, hs, rfl⟩ := calculate_planet_position_some hp
    exact ⟨rfl, r, hc, get_sign_degree hs⟩
  · intro r hd h
    obtain ⟨hhl, hasc, hmc, hvx⟩ := calculate_houses_some h
    refine ⟨?_, mk_angle_entry_some hasc, mk_angle_entry_some hmc, mk_angle_entry_some hvx⟩
    intro he hmem
    obtain ⟨i, _, hmk⟩ := map_option_mem hhl he hmem
    obtain ⟨h1, h2⟩ := mk_house_entry_some hmk
    exact ⟨h1, i, h2⟩

theorem C9_witness :
    (format_dms (43/4)).d = ⌊(43/4 : ℚ)⌋
    ∧ Option.map PlanetPos.degree_dms (calculate_planet_position (ex_eph.calc_ut 0) 0)
      = Option.map (fun p => format_dms p.degree) (calculate_planet_position (ex_eph.calc_ut 0) 0) := by
  constructor
  · exact (C9_dms_rendering.1 (43/4) (by norm_num)).1
  · have hc : ex_eph.calc_ut 0 0 = some { longitude := 10, latitude := 0, distance := 1, speed := 1 } := rfl
    obtain ⟨si, hsi⟩ := Option.isSome_iff_exists.mp (get_sign_isSome 10)
    have hp := calculate_planet_position_mk hc (by exact hsi)
    rw [hp, Option.map_some', Option.map_some', (C9_dms_rendering.2.1 _ _ _ hp).1]

/-! ### The applying/separating classifier -/

/-- C1: for every pair of chart points and every aspect kind in the
catalogue, the code's applying/separating classification equals the
spec's reference procedure (which advances BOTH longitudes by their own
angular speeds times 0.1 day); the code's single-advance by the relative
speed is the same projection. -/
theorem C1_applying_matches_spec (ad : AspectDef) (had : ad ∈ aspect_orbs)
    (lonA speedA lonB speedB : ℚ) :
    is_aspect_applying lonA speedA lonB speedB ad.angle
      = if spec_applying lonA speedA lonB speedB ad.angle then 'A' else 'S' := by
  have harg : lonA + (speedA - speedB) * (1/10) - lonB
      = (lonA + speedA * (1/10)) - (lonB + speedB * (1/10)) := by ring
  simp only [is_aspect_applying, spec_applying, distance_to_exact, spec_distance_to_exact,
    harg, decide_eq_true_eq]

theorem C1_witness :
    is_aspect_applying 10 1 5 0 (aspect_orbs.get ⟨0, by decide⟩).angle
      = if spec_applying 10 1 5 0 (aspect_orbs.get ⟨0, by decide⟩).angle then 'A' else 'S' :=
  C1_applying_matches_spec _ (List.get_mem _ _ _) 10 1 5 0

theorem normalize_angle_neg (y : ℚ) :
    normalize_angle (-y) = - normalize_angle y ∨ normalize_angle (-y) = normalize_angle y := by
  have h0 : 0 ≤ pymod y 360 := pymod_nonneg y (by norm_num)
  have h1 : pymod y 360 < 360 := pymod_lt y (by norm_num)
  have hneg := pymod_neg y (show (0 : ℚ) < 360 by norm_num)
  simp only [normalize_angle]
  rw [hneg]
  by_cases hz : pymod y 360 = 0
  · rw [if_pos hz, hz]
    norm_num
  · rw [if_neg hz]
    by_cases hgt : 180 < pymod y 360
    · rw [if_pos hgt, if_neg (show ¬ 180 < 360 - pymod y 360 by linarith)]
      left
      ring
    · push_neg at hgt
      rcases lt_or_eq_of_le hgt with hlt | heq
      · rw [if_neg (not_lt.2 hgt), if_pos (show (180:ℚ) < 360 - pymod y 360 by linarith)]
        left
        ring
      · rw [if_neg (not_lt.2 hgt), if_neg (show ¬ (180:ℚ) < 360 - pymod y 360 by rw [heq]; norm_num)]
        right
        rw [heq]
        norm_num

theorem distance_to_exact_neg (d a : ℚ) :
    distance_to_exact (-d) a = distance_to_exact d a := by
  unfold distance_to_exact
  split_ifs
  · rw [abs_neg]
  · rw [abs_neg]
  · rw [show -d - a = -(d + a) by ring, show -d + a = -(d - a) by ring, abs_neg, abs_neg,
      min_comm]

theorem distance_norm_neg (y a : ℚ) :
    distance_to_exact (normalize_angle (-y)) a = distance_to_exact (normalize_angle y) a := by
  rcases normalize_angle_neg y with h | h
  · rw [h, distance_to_exact_neg]
  · rw [h]

theorem is_aspect_applying_swap (l1 s1 l2 s2 a : ℚ) :
    is_aspect_applying l2 s2 l1 s1 a = is_aspect_applying l1 s1 l2 s2 a := by
  simp only [is_aspect_applying]
  rw [show l2 - l1 = -(l1 - l2) by ring,
    show l2 + (s2 - s1) * (1/10) - l1 = -(l1 + (s1 - s2) * (1/10) - l2) by ring,
    distance_norm_neg, distance_norm_neg]

theorem detect_pair_swap (n1 n2 : String) (l1 s1 l2 s2 : ℚ) (t : String) :
    detect_pair n2 n1 l2 s2 l1 s1 t
      = (detect_pair n1 n2 l1 s1 l2 s2 t).map swap_names := by
  simp only [detect_pair]
  rw [List.map_filterMap, abs_sub_comm l2 l1]
  congr 1
  funext ad
  split_ifs <;> first
    | rfl
    | (simp only [Option.map_some', swap_names]; rw [is_aspect_applying_swap])

/-- C6: the Aspect Detector is symmetric under swapping the two points —
for a single pair, and for a two-planet chart, the swapped run produces
exactly the same aspect kinds, orbs, angles and applying/separating
flags, with only the two labels interchanged. -/
theorem C6_swap_symmetry (n1 n2 kA kB : String) (l1 s1 l2 s2 : ℚ) (t : String)
    (pA pB : PlanetEntry) :
    (detect_pair n2 n1 l2 s2 l1 s1 t = (detect_pair n1 n2 l1 s1 l2 s2 t).map swap_names)
    ∧ (calculate_aspects [(kB, pB), (kA, pA)] none none
        = (calculate_aspects [(kA, pA), (kB, pB)] none none).map swap_names) := by
  refine ⟨detect_pair_swap n1 n2 l1 s1 l2 s2 t, ?_⟩
  simp only [calculate_aspects, pair_loop, List.map_cons, List.map_nil, List.flatten_cons,
    List.flatten_nil, List.append_nil, List.nil_append, List.map_append]
  exact detect_pair_swap (planet_name kA) (planet_name kB)
    pA.longitude pA.speed pB.longitude pB.speed pp_str

/-! ### At most one aspect per pair -/

theorem windows_disjoint (sep : ℚ) :
    (aspect_orbs.countP fun ad => decide (|sep - ad.angle| ≤ ad.orb)) ≤ 1 := by
  by_cases h1 : |sep - (0:ℚ)| ≤ 8 <;>
  by_cases h2 : |sep - (180:ℚ)| ≤ 8 <;>
  by_cases h3 : |sep - (120:ℚ)| ≤ 8 <;>
  by_cases h4 : |sep - (90:ℚ)| ≤ 8 <;>
  by_cases h5 : |sep - (60:ℚ)| ≤ 4 <;>
  simp only [aspect_orbs, List.countP_cons, List.countP_nil, decide_eq_true_eq,
    h1, h2, h3, h4, h5, if_true, if_false, not_false_iff] <;>
  first
    | linarith [(abs_le.mp h1).1, (abs_le.mp h1).2, (abs_le.mp h2).1, (abs_le.mp h2).2]
    | linarith [(abs_le.mp h1).1, (abs_le.mp h1).2, (abs_le.mp h3).1, (abs_le.mp h3).2]
    | linarith [(abs_le.mp h1).1, (abs_le.mp h1).2, (abs_le.mp h4).1, (abs_le.mp h4).2]
    | linarith [(abs_le.mp h1).1, (abs_le.mp h1).2, (abs_le.mp h5).1, (abs_le.mp h5).2]
    | linarith [(abs_le.mp h2).1, (abs_le.mp h2).2, (abs_le.mp h3).1, (abs_le.mp h3).2]
    | linarith [(abs_le.mp h2).1, (abs_le.mp h2).2, (abs_le.mp h4).1, (abs_le.mp h4).2]
    | linarith [(abs_le.mp h2).1, (abs_le.mp h2).2, (abs_le.mp h5).1, (abs_le.mp h5).2]
    | linarith [(abs_le.mp h3).1, (abs_le.mp h3).2, (abs_le.mp h4).1, (abs_le.mp h4).2]
    | linarith [(abs_le.mp h3).1, (abs_le.mp h3).2, (abs_le.mp h5).1, (abs_le.mp h5).2]
    | linarith [(abs_le.mp h4).1, (abs_le.mp h4).2, (abs_le.mp h5).1, (abs_le.mp h5).2]
    | norm_num

/-- C7: each pair registers at most one aspect per kind, and — because
the five tolerance windows of the implemented orb catalogue are pairwise
disjoint — at most one aspect in total. -/
theorem C7_at_most_one (n1 n2 : String) (l1 s1 l2 s2 : ℚ) (t : String)
    (sep : ℚ) (hs0 : 0 ≤ sep) (hs180 : sep ≤ 180) :
    (detect_pair n1 n2 l1 s1 l2 s2 t).length ≤ 1
    ∧ (∀ nm : String,
        ((detect_pair n1 n2 l1 s1 l2 s2 t).filter fun rec => rec.aspect == nm).length ≤ 1)
    ∧ (aspect_orbs.countP fun ad => decide (|sep - ad.angle| ≤ ad.orb)) ≤ 1 := by
  have hlen : (detect_pair n1 n2 l1 s1 l2 s2 t).length ≤ 1 := by
    simp only [detect_pair]
    rw [List.length_filterMap_eq_countP]
    rw [List.countP_congr
      (q := fun ad => decide (|(if 180 < |l1 - l2| then 360 - |l1 - l2| else |l1 - l2|) - ad.angle| ≤ ad.orb))
      (fun ad _ => by
        by_cases h : |(if 180 < |l1 - l2| then 360 - |l1 - l2| else |l1 - l2|) - ad.angle| ≤ ad.orb <;>
          simp [h])]
    exact windows_disjoint _
  exact ⟨hlen, fun nm => le_trans (List.length_filter_le _ _) hlen, windows_disjoint sep⟩

theorem C7_witness :
    (detect_pair sol_str luna_str 10 1 190 13 pp_str).length ≤ 1
    ∧ ((detect_pair sol_str luna_str 10 1 190 13 pp_str).filter
        fun rec => rec.aspect == quiron_str).length ≤ 1
    ∧ (aspect_orbs.countP fun ad => decide (|(90 : ℚ) - ad.angle| ≤ ad.orb)) ≤ 1 := by
  obtain ⟨a, b, c⟩ :=
    C7_at_most_one sol_str luna_str 10 1 190 13 pp_str 90 (by norm_num) (by norm_num)
  exact ⟨a, b quiron_str, c⟩

/-! ### The house assigner -/

theorem find?_eq_of_unique {p : Fin 12 → Bool} {i : Fin 12} :
    ∀ {l : List (Fin 12)}, i ∈ l → p i = true → (∀ j ∈ l, p j = true → j = i) →
      l.find? p = some i := by
  intro l
  induction l with
  | nil => intro h; simp at h
  | cons a tl ih =>
    intro hmem hpi huniq
    by_cases hpa : p a = true
    · rw [List.find?_cons_of_pos _ hpa]
      exact congrArg some (huniq a (List.mem_cons_self a tl) hpa)
    · rw [List.find?_cons_of_neg _ (by simpa using hpa)]
      have hit : i ∈ tl := by
        rcases List.mem_cons.mp hmem with h | h
        · exact absurd (h ▸ hpi) hpa
        · exact h
      exact ih hit hpi fun j hj => huniq j (List.mem_cons_of_mem a hj)

theorem cycD_step (c : Fin 12 → ℚ) (k : Fin 12)
    (hmono : ∀ i, i ≠ k → c i < c (i + 1)) (n : ℕ) (hn : n < 11) :
    cycD c k n < cycD c k (n + 1) := by
  have hval : ((n : Fin 12)).val = n := Fin.val_cast_of_lt (by omega)
  have hne : k + 1 + (n : Fin 12) ≠ k := by
    intro h
    rw [add_assoc] at h
    have h1 : (1 : Fin 12) + (n : Fin 12) = 0 := by
      have h0 : k + ((1 : Fin 12) + (n : Fin 12)) = k + 0 := by rw [add_zero]; exact h
      exact add_left_cancel h0
    have h2 : (n : Fin 12) = -1 := eq_neg_of_add_eq_zero_right h1
    have h3 : ((n : Fin 12)).val = 11 := by rw [h2]; decide
    omega
  have h2 := hmono _ hne
  have hsucc : ((n + 1 : ℕ) : Fin 12) = (n : Fin 12) + 1 := by push_cast; ring
  unfold cycD
  rw [hsucc, show k + 1 + ((n : Fin 12) + 1) = k + 1 + (n : Fin 12) + 1 by ring]
  exact h2

theorem cycD_mono (c : Fin 12 → ℚ) (k : Fin 12)
    (hmono : ∀ i, i ≠ k → c i < c (i + 1)) :
    ∀ a b : ℕ, a ≤ b → b ≤ 11 → cycD c k a ≤ cycD c k b := by
  intro a b
  induction b with
  | zero =>
    intro hab _
    have h : a = 0 := Nat.le_zero.mp hab
    rw [h]
  | succ m ih =>
    intro hab hb
    by_cases ham : a ≤ m
    · exact le_trans (ih ham (by omega)) (le_of_lt (cycD_step c k hmono m (by omega)))
    · have h : a = m + 1 := by omega
      rw [h]

theorem cyc_idx (c : Fin 12 → ℚ) (k i : Fin 12) :
    cycD c k ((i - (k + 1)).val) = c i := by
  unfold cycD
  rw [Fin.cast_val_eq_self]
  congr 1
  ring

theorem cyc_idx_succ (c : Fin 12 → ℚ) (k i : Fin 12) :
    cycD c k ((i - (k + 1)).val + 1) = c (i + 1) := by
  unfold cycD
  have h : (((i - (k + 1)).val + 1 : ℕ) : Fin 12) = (i - (k + 1)) + 1 := by
    push_cast
    rw [Fin.cast_val_eq_self]
  rw [h]
  congr 1
  ring

theorem idx_eq_11_iff (k i : Fin 12) : (i - (k + 1)).val = 11 ↔ i = k := by
  constructor
  · intro h
    have h2 : i - (k + 1) = (11 : Fin 12) := Fin.ext h
    have h3 : (11 : Fin 12) = -1 := by decide
    have h4 : i - (k + 1) = -1 := h2.trans h3
    have h5 : i = (k + 1) + (i - (k + 1)) := by ring
    rw [h4] at h5
    rw [h5]
    ring
  · intro h
    subst h
    rw [show i - (i + 1) = (-1 : Fin 12) by ring]
    decide

theorem mem_iff_nonwrap (c : Fin 12 → ℚ) (k : Fin 12)
    (hmono : ∀ i, i ≠ k → c i < c (i + 1)) (i : Fin 12) (hik : i ≠ k) (lon : ℚ) :
    house_mem c i lon = true ↔ (c i ≤ lon ∧ lon < c (i + 1)) := by
  have h := hmono i hik
  simp only [house_mem]
  rw [if_neg (not_lt.2 (le_of_lt h))]
  simp

theorem mem_iff_wrap (c : Fin 12 → ℚ) (k : Fin 12) (hwrap : c (k + 1) < c k) (lon : ℚ) :
    house_mem c k lon = true ↔ (c k ≤ lon ∨ lon < c (k + 1)) := by
  simp only [house_mem]
  rw [if_pos hwrap]
  simp

theorem house_exact (c : Fin 12 → ℚ) (hv : valid_cusps c) (lon : ℚ) :
    ∃ i : Fin 12, house_mem c i lon = true
      ∧ (∀ j : Fin 12, house_mem c j lon = true → j = i)
      ∧ house_of lon c = i.val + 1 := by
  obtain ⟨-, k, hwrap, hmono⟩ := hv
  have h0 : cycD c k 0 = c (k + 1) := by
    unfold cycD
    simp
  have h11 : cycD c k 11 = c k := by
    unfold cycD
    congr 1
    rw [show ((11 : ℕ) : Fin 12) = -1 by decide]
    ring
  have hchar : ∀ j : Fin 12, j ≠ k → house_mem c j lon = true →
      cycD c k ((j - (k + 1)).val) ≤ lon ∧ lon < cycD c k ((j - (k + 1)).val + 1) := by
    intro j hjk hj
    have h := (mem_iff_nonwrap c k hmono j hjk lon).mp hj
    exact ⟨by rw [cyc_idx]; exact h.1, by rw [cyc_idx_succ]; exact h.2⟩
  have hle11 : ∀ j : Fin 12, j ≠ k → (j - (k + 1)).val ≤ 10 := by
    intro j hjk
    have h1 : (j - (k + 1)).val < 12 := (j - (k + 1)).isLt
    have h2 : (j - (k + 1)).val ≠ 11 := fun h => hjk ((idx_eq_11_iff k j).mp h)
    omega
  have hidx_inj : ∀ j1 j2 : Fin 12, (j1 - (k + 1)).val = (j2 - (k + 1)).val → j1 = j2 := by
    intro j1 j2 h
    have h2 : j1 - (k + 1) = j2 - (k + 1) := Fin.ext h
    have h3 : j1 = (k + 1) + (j1 - (k + 1)) := by ring
    rw [h3, h2]
    ring
  have huniq : ∀ j1 j2 : Fin 12, house_mem c j1 lon = true → house_mem c j2 lon = true →
      j1 = j2 := by
    intro j1 j2 hj1 hj2
    by_cases h1k : j1 = k <;> by_cases h2k : j2 = k
    · rw [h1k, h2k]
    · exfalso
      obtain ⟨ha, hb⟩ := hchar j2 h2k hj2
      have hk := (mem_iff_wrap c k hwrap lon).mp (h1k ▸ hj1)
      have hn2 := hle11 j2 h2k
      rcases hk with hk | hk
      · have := cycD_mono c k hmono ((j2 - (k + 1)).val + 1) 11 (by omega) (by omega)
        rw [h11] at this
        linarith
      · have := cycD_mono c k hmono 0 ((j2 - (k + 1)).val) (by omega) (by omega)
        rw [h0] at this
        linarith
    · exfalso
      obtain ⟨ha, hb⟩ := hchar j1 h1k hj1
      have hk := (mem_iff_wrap c k hwrap lon).mp (h2k ▸ hj2)
      have hn1 := hle11 j1 h1k
      rcases hk with hk | hk
      · have := cycD_mono c k hmono ((j1 - (k + 1)).val + 1) 11 (by omega) (by omega)
        rw [h11] at this
        linarith
      · have := cycD_mono c k hmono 0 ((j1 - (k + 1)).val) (by omega) (by omega)
        rw [h0] at this
        linarith
    · obtain ⟨ha1, hb1⟩ := hchar j1 h1k hj1
      obtain ⟨ha2, hb2⟩ := hchar j2 h2k hj2
      have hn1 := hle11 j1 h1k
      have hn2 := hle11 j2 h2k
      rcases Nat.lt_trichotomy ((j1 - (k + 1)).val) ((j2 - (k + 1)).val) with h | h | h
      · exfalso
        have := cycD_mono c k hmono ((j1 - (k + 1)).val + 1) ((j2 - (k + 1)).val)
          (by omega) (by omega)
        linarith
      · exact hidx_inj j1 j2 h
      · exfalso
        have := cycD_mono c k hmono ((j2 - (k + 1)).val + 1) ((j1 - (k + 1)).val)
          (by omega) (by omega)
        linarith
  have hex : ∃ i : Fin 12, house_mem c i lon = true := by
    by_cases hcase : lon < cycD c k 0 ∨ cycD c k 11 ≤ lon
    · refine ⟨k, (mem_iff_wrap c k hwrap lon).mpr ?_⟩
      rcases hcase with h | h
      · right
        rw [← h0]
        exact h
      · left
        rw [← h11]
        exact h
    · push_neg at hcase
      obtain ⟨hlow, hhigh⟩ := hcase
      have hP0 : cycD c k 0 ≤ lon := hlow
      have hn₀P : cycD c k (Nat.findGreatest (fun m => cycD c k m ≤ lon) 10) ≤ lon :=
        Nat.findGreatest_spec (P := fun m => cycD c k m ≤ lon) (show 0 ≤ 10 by omega) hP0
      have hn₀le : Nat.findGreatest (fun m => cycD c k m ≤ lon) 10 ≤ 10 :=
        Nat.findGreatest_le 10
      have hlt : lon < cycD c k (Nat.findGreatest (fun m => cycD c k m ≤ lon) 10 + 1) := by
        by_cases h10 : Nat.findGreatest (fun m => cycD c k m ≤ lon) 10 = 10
        · rw [h10]
          exact hhigh
        · by_contra hcon
          push_neg at hcon
          exact Nat.findGreatest_is_greatest (P := fun m => cycD c k m ≤ lon)
            (n := 10) (k := Nat.findGreatest (fun m => cycD c k m ≤ lon) 10 + 1)
            (by omega) (by omega) hcon
      set n₀ := Nat.findGreatest (fun m => cycD c k m ≤ lon) 10 with hn₀
      have hvcast : ((n₀ : Fin 12)).val = n₀ := Fin.val_cast_of_lt (by omega)
      have hikk : k + 1 + (n₀ : Fin 12) ≠ k := by
        intro h
        have h2 : (k + 1 + (n₀ : Fin 12)) - (k + 1) = k - (k + 1) := by rw [h]
        have h3 : k + 1 + (n₀ : Fin 12) - (k + 1) = (n₀ : Fin 12) := by ring
        have h4 : k - (k + 1) = (-1 : Fin 12) := by ring
        rw [h3, h4] at h2
        have h5 : ((n₀ : Fin 12)).val = 11 := by rw [h2]; decide
        omega
      have hval : ((k + 1 + (n₀ : Fin 12)) - (k + 1)).val = n₀ := by
        rw [show k + 1 + (n₀ : Fin 12) - (k + 1) = (n₀ : Fin 12) by ring]
        exact hvcast
      refine ⟨k + 1 + (n₀ : Fin 12), (mem_iff_nonwrap c k hmono _ hikk lon).mpr ⟨?_, ?_⟩⟩
      · rw [← cyc_idx c k (k + 1 + (n₀ : Fin 12)), hval]
        exact hn₀P
      · rw [← cyc_idx_succ c k (k + 1 + (n₀ : Fin 12)), hval]
        exact hlt
  obtain ⟨i, hi⟩ := hex
  refine ⟨i, hi, fun j hj => huniq j i hj hi, ?_⟩
  unfold house_of
  rw [find?_eq_of_unique (List.mem_finRange i) hi fun j _ hj => huniq j i hj hi]

/-- C4: the House Assigner checks houses in cusp order 1..12 and returns
`i+1` for the first house satisfying the interval rule (with the 0°
wraparound case), defaulting to house 1 — i.e. it coincides with the
spec's first-match procedure; a body exactly at a cusp of a valid cusp
set belongs to the house starting there; and for cusps beginning
[350, 20, ...] a body at longitude 5 is placed in house 1, not 2. -/
theorem C4_house_rule :
    (∀ (lon : ℚ) (c : Fin 12 → ℚ), house_of lon c = spec_house lon c)
    ∧ (∀ c : Fin 12 → ℚ, valid_cusps c → ∀ i : Fin 12, house_of (c i) c = i.val + 1)
    ∧ house_of 5 exCusps = 1 ∧ house_of 5 exCusps ≠ 2 := by
  refine ⟨?_, ?_, by decide, by decide⟩
  · intro lon c
    unfold house_of spec_house
    have h : (fun i => house_mem c i lon) = fun i => spec_house_rule c i lon := by
      funext i
      simp only [house_mem, spec_house_rule]
      rcases lt_trichotomy (c (i + 1)) (c i) with h | h | h
      · rw [if_pos h, if_neg (not_le.2 h)]
      · rw [if_neg (by rw [h]; exact lt_irrefl _), if_pos (le_of_eq h.symm)]
      · rw [if_neg (not_lt.2 (le_of_lt h)), if_pos (le_of_lt h)]
    rw [h]
  · intro c hv i
    obtain ⟨i₀, hmem₀, huniq₀, hres⟩ := house_exact c hv (c i)
    have hmi : house_mem c i (c i) = true := by
      obtain ⟨-, k, hwrap, hmono⟩ := hv
      by_cases hik : i = k
      · subst hik
        exact (mem_iff_wrap c i hwrap (c i)).mpr (Or.inl le_rfl)
      · exact (mem_iff_nonwrap c k hmono i hik (c i)).mpr ⟨le_rfl, hmono i hik⟩
    rw [← huniq₀ i hmi] at hres
    exact hres

theorem C4_witness : house_of (exCusps 2) exCusps = 3 :=
  C4_house_rule.2.1 exCusps (by unfold valid_cusps; decide) 2

/-- C5: for every longitude in [0,360) and every valid 12-cusp set
spanning the circle, exactly one house satisfies the membership rule,
the House Assigner returns that house, and the search succeeds so the
no-match default is never reached. -/
theorem C5_house_exhaustive (c : Fin 12 → ℚ) (hv : valid_cusps c) (lon : ℚ)
    (hl0 : 0 ≤ lon) (hl360 : lon < 360) :
    ∃ i : Fin 12, house_mem c i lon = true
      ∧ (∀ j : Fin 12, house_mem c j lon = true → j = i)
      ∧ house_of lon c = i.val + 1
      ∧ ((List.finRange 12).find? fun j => house_mem c j lon).isSome = true := by
  obtain ⟨i, h1, h2, h3⟩ := house_exact c hv lon
  refine ⟨i, h1, h2, h3, ?_⟩
  rw [find?_eq_of_unique (List.mem_finRange i) h1 fun j _ hj => h2 j hj]
  rfl

theorem C5_witness : house_of 100 exCusps = 4 := by
  obtain ⟨i, h1, h2, h3, -⟩ :=
    C5_house_exhaustive exCusps (by unfold valid_cusps; decide) 100 (by norm_num) (by norm_num)
  rw [← h2 3 (by decide)] at h3
  exact h3

theorem mk_house_eval0 : mk_house_entry 0 0 = some ⟨"Casa 1 (AC)", 1, 0, ⟨0,0,0⟩, "Aries", 0⟩ := by
  norm_num [mk_house_entry, get_sign, sign_index_of, degree_raw, normalize_full, pymod, py_int,
    py_round, py_index, SIGNS, format_dms, house_names, empty_str] <;> decide

theorem mk_house_eval1 : mk_house_entry 1 30 = some ⟨"Casa 2", 2, 30, ⟨0,0,0⟩, "Tauro", 0⟩ := by
  norm_num [mk_house_entry, get_sign, sign_index_of, degree_raw, normalize_full, pymod, py_int,
    py_round, py_index, SIGNS, format_dms, house_names, empty_str] <;> decide

theorem mk_house_eval2 : mk_house_entry 2 60 = some ⟨"Casa 3", 3, 60, ⟨0,0,0⟩, "Géminis", 0⟩ := by
  norm_num [mk_house_entry, get_sign, sign_index_of, degree_raw, normalize_full, pymod, py_int,
    py_round, py_index, SIGNS, format_dms, house_names, empty_str] <;> decide

theorem mk_house_eval3 : mk_house_entry 3 90 = some ⟨"Casa 4 (FC)", 4, 90, ⟨0,0,0⟩, "Cáncer", 0⟩ := by
  norm_num [mk_house_entry, get_sign, sign_index_of, degree_raw, normalize_full, pymod, py_int,
    py_round, py_index, SIGNS, format_dms, house_names, empty_str] <;> decide

theorem mk_house_eval4 : mk_house_entry 4 120 = some ⟨"Casa 5", 5, 120, ⟨0,0,0⟩, "Leo", 0⟩ := by
  norm_num [mk_house_entry, get_sign, sign_index_of, degree_raw, normalize_full, pymod, py_int,
    py_round, py_index, SIGNS, format_dms, house_names, empty_str] <;> decide

theorem mk_house_eval5 : mk_house_entry 5 150 = some ⟨"Casa 6", 6, 150, ⟨0,0,0⟩, "Virgo", 0⟩ := by
  norm_num [mk_house_entry, get_sign, sign_index_of, degree_raw, normalize_full, pymod, py_int,
    py_round, py_index, SIGNS, format_dms, house_names, empty_str] <;> decide

theorem mk_house_eval6 : mk_house_entry 6 180 = some ⟨"Casa 7 (DC)", 7, 180, ⟨0,0,0⟩, "Libra", 0⟩ := by
  norm_num [mk_house_entry, get_sign, sign_index_of, degree_raw, normalize_full, pymod, py_int,
    py_round, py_index, SIGNS, format_dms, house_names, empty_str] <;> decide

theorem mk_house_eval7 : mk_house_entry 7 210 = some ⟨"Casa 8", 8, 210, ⟨0,0,0⟩, "Escorpio", 0⟩ := by
  norm_num [mk_house_entry, get_sign, sign_index_of, degree_raw, normalize_full, pymod, py_int,
    py_round, py_index, SIGNS, format_dms, house_names, empty_str] <;> decide

theorem mk_house_eval8 : mk_house_entry 8 240 = some ⟨"Casa 9", 9, 240, ⟨0,0,0⟩, "Sagitario", 0⟩ := by
  norm_num [mk_house_entry, get_sign, sign_index_of, degree_raw, normalize_full, pymod, py_int,
    py_round, py_index, SIGNS, format_dms, house_names, empty_str] <;> decide

theorem mk_house_eval9 : mk_house_entry 9 270 = some ⟨"Casa 10 (MC)", 10, 270, ⟨0,0,0⟩, "Capricornio", 0⟩ := by
  norm_num [mk_house_entry, get_sign, sign_index_of, degree_raw, normalize_full, pymod, py_int,
    py_round, py_index, SIGNS, format_dms, house_names, empty_str] <;> decide

theorem mk_house_eval10 : mk_house_entry 10 300 = some ⟨"Casa 11", 11, 300, ⟨0,0,0⟩, "Acuario", 0⟩ := by
  norm_num [mk_house_entry, get_sign, sign_index_of, degree_raw, normalize_full, pymod, py_int,
    py_round, py_index, SIGNS, format_dms, house_names, empty_str] <;> decide

theorem mk_house_eval11 : mk_house_entry 11 330 = some ⟨"Casa 12", 12, 330, ⟨0,0,0⟩, "Piscis", 0⟩ := by
  norm_num [mk_house_entry, get_sign, sign_index_of, degree_raw, normalize_full, pymod, py_int,
    py_round, py_index, SIGNS, format_dms, house_names, empty_str] <;> decide

theorem mk_angle_eval_asc : mk_angle_entry 0 = some ⟨0, ⟨0,0,0⟩, "Aries", 0⟩ := by
  norm_num [mk_angle_entry, get_sign, sign_index_of, degree_raw, normalize_full, pymod, py_int,
    py_round, py_index, SIGNS, format_dms] <;> decide

theorem mk_angle_eval_mc : mk_angle_entry 270 = some ⟨270, ⟨0,0,0⟩, "Capricornio", 0⟩ := by
  norm_num [mk_angle_entry, get_sign, sign_index_of, degree_raw, normalize_full, pymod, py_int,
    py_round, py_index, SIGNS, format_dms] <;> decide

theorem mk_angle_eval_vx : mk_angle_entry 100 = some ⟨100, ⟨10,0,0⟩, "Cáncer", 10⟩ := by
  norm_num [mk_angle_entry, get_sign, sign_index_of, degree_raw, normalize_full, pymod, py_int,
    py_round, py_index, SIGNS, format_dms] <;> decide

theorem ex_houses_eval (a b c : ℚ) :
    calculate_houses (ex_eph.houses a b c) = some ex_houses_data := by
  rw [show ex_eph.houses a b c
      = some { cusps := fun i => 30 * (i.val : ℚ), ascendant := 0, mc := 270, vertex := 100 }
    from rfl]
  simp only [calculate_houses]
  rw [show List.finRange 12 = [0,1,2,3,4,5,6,7,8,9,10,11] from by decide]
  have f0 : (fun i : Fin 12 =>
      mk_house_entry i.val (RawHouses.cusps { cusps := fun i => 30 * (i.val : ℚ), ascendant := 0, mc := 270, vertex := 100 } i)) (0 : Fin 12)
      = some ⟨"Casa 1 (AC)", 1, 0, ⟨0,0,0⟩, "Aries", 0⟩ := by
    norm_num [mk_house_eval0, show ((0 : Fin 12)).val = 0 from rfl]
  have f1 : (fun i : Fin 12 =>
      mk_house_entry i.val (RawHouses.cusps { cusps := fun i => 30 * (i.val : ℚ), ascendant := 0, mc := 270, vertex := 100 } i)) (1 : Fin 12)
      = some ⟨"Casa 2", 2, 30, ⟨0,0,0⟩, "Tauro", 0⟩ := by
    norm_num [mk_house_eval1, show ((1 : Fin 12)).val = 1 from rfl]
  have f2 : (fun i : Fin 12 =>
      mk_house_entry i.val (RawHouses.cusps { cusps := fun i => 30 * (i.val : ℚ), ascendant := 0, mc := 270, vertex := 100 } i)) (2 : Fin 12)
      = some ⟨"Casa 3", 3, 60, ⟨0,0,0⟩, "Géminis", 0⟩ := by
    norm_num [mk_house_eval2, show ((2 : Fin 12)).val = 2 from rfl]
  have f3 : (fun i : Fin 12 =>
      mk_house_entry i.val (RawHouses.cusps { cusps := fun i => 30 * (i.val : ℚ), ascendant := 0, mc := 270, vertex := 100 } i)) (3 : Fin 12)
      = some ⟨"Casa 4 (FC)", 4, 90, ⟨0,0,0⟩, "Cáncer", 0⟩ := by
    norm_num [mk_house_eval3, show ((3 : Fin 12)).val = 3 from rfl]
  have f4 : (fun i : Fin 12 =>
      mk_house_entry i.val (RawHouses.cusps { cusps := fun i => 30 * (i.val : ℚ), ascendant := 0, mc := 270, vertex := 100 } i)) (4 : Fin 12)
      = some ⟨"Casa 5", 5, 120, ⟨0,0,0⟩, "Leo", 0⟩ := by
    norm_num [mk_house_eval4, show ((4 : Fin 12)).val = 4 from rfl]
  have f5 : (fun i : Fin 12 =>
      mk_house_entry i.val (RawHouses.cusps { cusps := fun i => 30 * (i.val : ℚ), ascendant := 0, mc := 270, vertex := 100 } i)) (5 : Fin 12)
      = some ⟨"Casa 6", 6, 150, ⟨0,0,0⟩, "Virgo", 0⟩ := by
    norm_num [mk_house_eval5, show ((5 : Fin 12)).val = 5 from rfl]
  have f6 : (fun i : Fin 12 =>
      mk_house_entry i.val (RawHouses.cusps { cusps := fun i => 30 * (i.val : ℚ), ascendant := 0, mc := 270, vertex := 100 } i)) (6 : Fin 12)
      = some ⟨"Casa 7 (DC)", 7, 180, ⟨0,0,0⟩, "Libra", 0⟩ := by
    norm_num [mk_house_eval6, show ((6 : Fin 12)).val = 6 from rfl]
  have f7 : (fun i : Fin 12 =>
      mk_house_entry i.val (RawHouses.cusps { cusps := fun i => 30 * (i.val : ℚ), ascendant := 0, mc := 270, vertex := 100 } i)) (7 : Fin 12)
      = some ⟨"Casa 8", 8, 210, ⟨0,0,0⟩, "Escorpio", 0⟩ := by
    norm_num [mk_house_eval7, show ((7 : Fin 12)).val = 7 from rfl]
  have f8 : (fun i : Fin 12 =>
      mk_house_entry i.val (RawHouses.cusps { cusps := fun i => 30 * (i.val : ℚ), ascendant := 0, mc := 270, vertex := 100 } i)) (8 : Fin 12)
      = some ⟨"Casa 9", 9, 240, ⟨0,0,0⟩, "Sagitario", 0⟩ := by
    norm_num [mk_house_eval8, show ((8 : Fin 12)).val = 8 from rfl]
  have f9 : (fun i : Fin 12 =>
      mk_house_entry i.val (RawHouses.cusps { cusps := fun i => 30 * (i.val : ℚ), ascendant := 0, mc := 270, vertex := 100 } i)) (9 : Fin 12)
      = some ⟨"Casa 10 (MC)", 10, 270, ⟨0,0,0⟩, "Capricornio", 0⟩ := by
    norm_num [mk_house_eval9, show ((9 : Fin 12)).val = 9 from rfl]
  have f10 : (fun i : Fin 12 =>
      mk_house_entry i.val (RawHouses.cusps { cusps := fun i => 30 * (i.val : ℚ), ascendant := 0, mc := 270, vertex := 100 } i)) (10 : Fin 12)
      = some ⟨"Casa 11", 11, 300, ⟨0,0,0⟩, "Acuario", 0⟩ := by
    norm_num [mk_house_eval10, show ((10 : Fin 12)).val = 10 from rfl]
  have f11 : (fun i : Fin 12 =>
      mk_house_entry i.val (RawHouses.cusps { cusps := fun i => 30 * (i.val : ℚ), ascendant := 0, mc := 270, vertex := 100 } i)) (11 : Fin 12)
      = some ⟨"Casa 12", 12, 330, ⟨0,0,0⟩, "Piscis", 0⟩ := by
    norm_num [mk_house_eval11, show ((11 : Fin 12)).val = 11 from rfl]
  simp only [map_option, f0, f1, f2, f3, f4, f5, f6, f7, f8, f9, f10, f11]
  norm_num [mk_angle_eval_asc, mk_angle_eval_mc, mk_angle_eval_vx, ex_houses_data]

theorem ex_jd_eval : natal_julian_day ex_eph ex_tz 2000 1 1 12 0 utc_str = 2451545 := rfl

theorem hpsun : calculate_planet_position (ex_eph.calc_ut 2451545) 0
    = some ⟨10, 0, 1, 1, ⟨10,0,0⟩, "Aries", 10⟩ := by
  norm_num [calculate_planet_position,
    show ex_eph.calc_ut 2451545 0 = some (⟨10, 0, 1, 1⟩ : RawPos) from rfl,
    get_sign, sign_index_of, degree_raw, normalize_full, pymod, py_int, py_round, py_index,
    SIGNS, format_dms] <;> decide

theorem hpmoon : calculate_planet_position (ex_eph.calc_ut 2451545) 1
    = some ⟨190, 0, 1, 13, ⟨10,0,0⟩, "Libra", 10⟩ := by
  norm_num [calculate_planet_position,
    show ex_eph.calc_ut 2451545 1 = some (⟨190, 0, 1, 13⟩ : RawPos) from rfl,
    get_sign, sign_index_of, degree_raw, normalize_full, pymod, py_int, py_round, py_index,
    SIGNS, format_dms] <;> decide

theorem hmksun : mk_planet_entry "sun" ex_houses_data.houses ⟨10, 0, 1, 1, ⟨10,0,0⟩, "Aries", 10⟩
    = sunE := by decide

theorem hmkmoon : mk_planet_entry "moon" ex_houses_data.houses ⟨190, 0, 1, 13, ⟨10,0,0⟩, "Libra", 10⟩
    = moonE := by decide

theorem hstep : PLANETS.foldl (planets_step (ex_eph.calc_ut 2451545) ex_houses_data.houses) ([], [])
    = ([("sun", sunE), ("moon", moonE)],
       ["mercury", "venus", "mars", "jupiter", "saturn", "uranus", "neptune", "pluto",
        "north_node", "chiron"]) := by
  simp only [PLANETS, List.foldl_cons, List.foldl_nil, planets_step, hpsun, hpmoon, hmksun, hmkmoon,
    show calculate_planet_position (ex_eph.calc_ut 2451545) 2 = none from rfl,
    show calculate_planet_position (ex_eph.calc_ut 2451545) 3 = none from rfl,
    show calculate_planet_position (ex_eph.calc_ut 2451545) 4 = none from rfl,
    show calculate_planet_position (ex_eph.calc_ut 2451545) 5 = none from rfl,
    show calculate_planet_position (ex_eph.calc_ut 2451545) 6 = none from rfl,
    show calculate_planet_position (ex_eph.calc_ut 2451545) 7 = none from rfl,
    show calculate_planet_position (ex_eph.calc_ut 2451545) 8 = none from rfl,
    show calculate_planet_position (ex_eph.calc_ut 2451545) 9 = none from rfl,
    show calculate_planet_position (ex_eph.calc_ut 2451545) 11 = none from rfl,
    show calculate_planet_position (ex_eph.calc_ut 2451545) 15 = none from rfl,
    List.nil_append, List.append_nil, List.cons_append, List.singleton_append]

theorem hasp_pp : detect_pair "Sol" "Luna" 10 1 190 13 pp_str = [oppRec] := by
  norm_num [detect_pair, aspect_orbs, is_aspect_applying, normalize_angle, distance_to_exact,
    pymod, py_round, py_int, List.filterMap_cons, List.filterMap_nil, oppRec, pp_str] <;> decide

theorem hasp_sunasc : detect_pair "Sol" asc_str 10 1 0 0 pa_str = [] := by
  norm_num [detect_pair, aspect_orbs, is_aspect_applying, normalize_angle, distance_to_exact,
    pymod, py_round, py_int, List.filterMap_cons, List.filterMap_nil]

theorem hasp_moonasc : detect_pair "Luna" asc_str 190 13 0 0 pa_str = [] := by
  norm_num [detect_pair, aspect_orbs, is_aspect_applying, normalize_angle, distance_to_exact,
    pymod, py_round, py_int, List.filterMap_cons, List.filterMap_nil]

theorem hasp_sunmc : detect_pair "Sol" mc_str 10 1 270 0 pa_str = [] := by
  norm_num [detect_pair, aspect_orbs, is_aspect_applying, normalize_angle, distance_to_exact,
    pymod, py_round, py_int, List.filterMap_cons, List.filterMap_nil]

theorem hasp_moonmc : detect_pair "Luna" mc_str 190 13 270 0 pa_str = [] := by
  norm_num [detect_pair, aspect_orbs, is_aspect_applying, normalize_angle, distance_to_exact,
    pymod, py_round, py_int, List.filterMap_cons, List.filterMap_nil]

theorem haspects : calculate_aspects [("sun", sunE), ("moon", moonE)] (some 0) (some 270)
    = [oppRec] := by
  simp only [calculate_aspects, pair_loop, List.map_cons, List.map_nil, List.flatten_cons,
    List.flatten_nil, sunE, moonE,
    show planet_name "sun" = "Sol" from rfl, show planet_name "moon" = "Luna" from rfl,
    hasp_pp, hasp_sunasc, hasp_moonasc, hasp_sunmc, hasp_moonmc,
    List.nil_append, List.append_nil, List.cons_append]

theorem ex_chart_eval : ex_chart = Except.ok ex_chart_val := by
  simp only [ex_chart, calculate_natal_chart, ex_jd_eval,
    show convert_local_to_utc ex_tz 2000 1 1 12 0 utc_str = (2000, 1, 1, 12, (0:ℚ)) from rfl,
    ex_houses_eval,
    show ex_houses_data.ascendant.longitude = 0 from rfl,
    show ex_houses_data.mc.longitude = 270 from rfl,
    hstep, haspects]
  norm_num [ex_chart_val, py_round, py_int, pad2, high_str, swiss_str, utc_str, date_str,
    time_str] <;> decide

theorem foldl_planets_eq (calcut : ℤ → Option RawPos) (houses : List HouseEntry) :
    ∀ (P : List (String × ℤ)) (acc : List (String × PlanetEntry) × List String),
      P.foldl (planets_step calcut houses) acc
        = (acc.1 ++ P.filterMap (fun kv => (calculate_planet_position calcut kv.2).map
              fun pos => (kv.1, mk_planet_entry kv.1 houses pos)),
           acc.2 ++ P.filterMap fun kv =>
              match calculate_planet_position calcut kv.2 with
              | none => some kv.1
              | some _ => none) := by
  intro P
  induction P with
  | nil => intro acc; simp
  | cons kv P ih =>
    intro acc
    rw [List.foldl_cons, ih]
    cases h : calculate_planet_position calcut kv.2 <;>
      simp [planets_step, h, List.append_assoc]

theorem PLANETS_key_unique : ∀ x ∈ PLANETS, ∀ y ∈ PLANETS, x.1 = y.1 → x = y := by decide

/-- C2 (amended): if the house computation succeeds and the position
query for an individual body fails, the chart is still produced, that
body is omitted from it, every successfully computed body is present,
and the omission is recorded only in the internal failed list (which the
source merely logs and does not include in the response). -/
theorem C2_partial_success (e : Ephemeris) (tz : TzDb)
    (now birth_date birth_time timezone : String)
    (year month day hour minute : ℤ) (latitude longitude : ℚ)
    (b : String) (pid : ℤ)
    (hmem : (b, pid) ∈ PLANETS)
    (hfail : calculate_planet_position
        (e.calc_ut (natal_julian_day e tz year month day hour minute timezone)) pid = none)
    (hhouses : (calculate_houses (e.houses
        (natal_julian_day e tz year month day hour minute timezone) latitude longitude)).isSome
        = true) :
    ∃ chart : ChartData,
      calculate_natal_chart e tz now birth_date birth_time timezone
          year month day hour minute latitude longitude = Except.ok chart
      ∧ (∀ p ∈ chart.planets, p.1 ≠ b)
      ∧ b ∈ natal_failed_planets
          (e.calc_ut (natal_julian_day e tz year month day hour minute timezone))
      ∧ ∀ b2 pid2, (b2, pid2) ∈ PLANETS →
          calculate_planet_position
            (e.calc_ut (natal_julian_day e tz year month day hour minute timezone)) pid2 ≠ none →
          ∃ q, (b2, q) ∈ chart.planets := by
  obtain ⟨hd, hd_eq⟩ := Option.isSome_iff_exists.mp hhouses
  simp only [calculate_natal_chart, hd_eq, foldl_planets_eq, List.nil_append]
  refine ⟨_, rfl, ?_, ?_, ?_⟩
  · intro p hp hpb
    obtain ⟨kv, hkv_mem, hg⟩ := List.mem_filterMap.mp hp
    obtain ⟨pos, hpos, hpair⟩ := Option.map_eq_some'.mp hg
    have hk1 : kv.1 = b := by rw [← hpb, ← hpair]
    have hkv : kv = (b, pid) := PLANETS_key_unique kv hkv_mem (b, pid) hmem hk1
    rw [hkv] at hpos
    rw [hfail] at hpos
    cases hpos
  · exact List.mem_filterMap.mpr ⟨(b, pid), hmem, by rw [hfail]⟩
  · intro b2 pid2 hmem2 hne
    obtain ⟨pos, hpos⟩ := Option.ne_none_iff_exists'.mp hne
    exact ⟨mk_planet_entry b2 hd.houses pos,
      List.mem_filterMap.mpr ⟨(b2, pid2), hmem2, by rw [hpos]; rfl⟩⟩

/-- C2 counterexample: a run in which the chiron query fails while sun
and moon succeed; the chart is produced with sun and moon only, and the
response contains no record of the failed body anywhere — neither the
key nor the display name of chiron occurs among its strings. -/
theorem C2_counterexample :
    calculate_planet_position
        (ex_eph.calc_ut (natal_julian_day ex_eph ex_tz 2000 1 1 12 0 utc_str)) 15 = none
    ∧ (Option.map (fun c => c.planets.map Prod.fst) (exceptOk ex_chart)).getD []
        = ["sun", "moon"]
    ∧ "chiron" ∉ (Option.map chart_strings (exceptOk ex_chart)).getD ["chiron"]
    ∧ "Quirón" ∉ (Option.map chart_strings (exceptOk ex_chart)).getD ["Quirón"] := by
  refine ⟨rfl, ?_, ?_, ?_⟩ <;> rw [ex_chart_eval] <;> decide

theorem C2_witness :
    (exceptOk (calculate_natal_chart ex_eph ex_tz now_str date_str time_str utc_str
        2000 1 1 12 0 0 0)).isSome = true
    ∧ "chiron" ∈ natal_failed_planets
        (ex_eph.calc_ut (natal_julian_day ex_eph ex_tz 2000 1 1 12 0 utc_str)) := by
  obtain ⟨chart, hok, hnb, hfp, hsucc⟩ := C2_partial_success ex_eph ex_tz now_str date_str
    time_str utc_str 2000 1 1 12 0 0 0 "chiron" 15 (by decide) rfl
    (by rw [ex_houses_eval]; rfl)
  exact ⟨by rw [hok]; rfl, hfp⟩
